import Mathlib

/-!
Verification of the Ígneo monitor telemetry pipeline.

The development shallowly embeds the telemetry ingestion and alert-derivation
pipeline of the dashboard (the `App` components in `src/App.jsx` and the
unnamed variant): the raw ThingSpeak feed record, the alert classifier
`checkAlertStatus`, the fetch cycle `fetchData`, the chart projection
`getChartData`, the humidity flag `isHumidityAlert`, and a discrete-event
model of the polling effect (`setInterval` / `clearInterval` / async
completion).  JavaScript numbers are modelled as `Option Rat`, with `none`
playing the role of `NaN`; JavaScript strings are `String`; a possibly
`undefined` field is an `Option`.
-/

namespace Igneo

/-- Value of a decimal digit character. -/
def digitVal (c : Char) : Nat := c.toNat - 48

/-- Consume a maximal run of leading decimal digits from a character list,
accumulating their value and count.  Returns (value, digit count, rest). -/
def parseDigitsAux : List Char → Nat → Nat → Nat × Nat × List Char
  | [], acc, n => (acc, n, [])
  | c :: cs, acc, n =>
    if c.isDigit then parseDigitsAux cs (acc * 10 + digitVal c) (n + 1)
    else (acc, n, c :: cs)

/-- Parse an unsigned decimal literal prefix (digits with an optional
fractional part), ignoring any trailing garbage, as JavaScript
`parseFloat` does.  `none` models `NaN` (no digits at all). -/
def parseUnsigned (cs : List Char) : Option Rat :=
  let (ip, icount, rest) := parseDigitsAux cs 0 0
  match rest with
  | '.' :: cs2 =>
    let (fp, fcount, _) := parseDigitsAux cs2 0 0
    if icount + fcount = 0 then none
    else some ((ip : Rat) + (fp : Rat) / ((10 : Rat) ^ fcount))
  | _ => if icount = 0 then none else some ((ip : Rat))

/-- Model of JavaScript `parseFloat` on the decimal fragment the telemetry
fields use: optional sign, digits, optional fractional part, longest valid
prefix; `none` models the `NaN` result.  (Leading whitespace, exponents and
`Infinity` are not modelled; the feeds never carry them.) -/
def parseFloat (s : String) : Option Rat :=
  match s.data with
  | '-' :: rest => (parseUnsigned rest).map (fun q => -q)
  | '+' :: rest => parseUnsigned rest
  | cs => parseUnsigned cs

/-- `parseFloat` applied to a possibly `undefined` field:
`parseFloat(undefined)` is `NaN` in JavaScript. -/
def parseFloatOpt : Option String → Option Rat
  | none => none
  | some s => parseFloat s

/-- JavaScript `>` on a possibly-`NaN` left operand: any comparison with
`NaN` is false. -/
def jsGt (v : Option Rat) (c : Rat) : Bool :=
  match v with
  | some t => decide (t > c)
  | none => false

/-- JavaScript `<` on a possibly-`NaN` left operand: any comparison with
`NaN` is false. -/
def jsLt (v : Option Rat) (c : Rat) : Bool :=
  match v with
  | some t => decide (t < c)
  | none => false

/-- JavaScript truthiness of a possibly `undefined` string field:
`undefined` and the empty string are falsy, every other string is truthy. -/
def truthyStr : Option String → Bool
  | none => false
  | some s => s ≠ ""

/-- A raw ThingSpeak feed record, as consumed by the dashboard:
`field1` = temperature, `field2` = humidity, `field3` = smoke level,
`field4` = smoke status.  The four data fields are strings that may be
absent (`undefined`).  `created_at` is the provider timestamp, modelled as
an abstract instant (the ISO-8601 string's time point); `entry_id` is the
provider entry counter. -/
structure Feed where
  field1 : Option String
  field2 : Option String
  field3 : Option String
  field4 : Option String
  created_at : Nat
  entry_id : Nat
deriving DecidableEq

/-- The result of `checkAlertStatus`: the overall alert flag and the cause
label. -/
structure AlertStatus where
  isAlert : Bool
  cause : String
deriving DecidableEq

/-- `TEMP_CRITICA` as bound in the source (40 °C).  The classifier below is
parametrised over it, since the spec requires the critical temperature to be
configurable. -/
def TEMP_CRITICA : Rat := 40

/-- `HUMEDAD_MAX` from the source (80 %). -/
def HUMEDAD_MAX : Rat := 80

/-- `HUMEDAD_MIN` from the source (20 %). -/
def HUMEDAD_MIN : Rat := 20

/-- `isTempAlert` of `checkAlertStatus`:
`parseFloat(data.field1) > TEMP_CRITICA` (false when the parse is `NaN`). -/
def isTempAlert (tempCritica : Rat) (d : Feed) : Bool :=
  jsGt (parseFloatOpt d.field1) tempCritica

/-- `isSmokeAlert` of `checkAlertStatus`: `data.field4 !== 'NORMAL'`
(an absent `field4` also differs from the literal, hence alerts). -/
def isSmokeAlert (d : Feed) : Bool :=
  decide (d.field4 ≠ some "NORMAL")

/-- The alert classifier `checkAlertStatus(data)` from `src/App.jsx`
(lines 160–184), parametrised over the critical temperature:
a null sample yields `{isAlert: false, cause: 'NORMAL'}`; otherwise the
cause is chosen by the priority chain smoke∧temp, smoke, temp, normal. -/
def checkAlertStatus (tempCritica : Rat) (data : Option Feed) : AlertStatus :=
  match data with
  | none => { isAlert := false, cause := "NORMAL" }
  | some d =>
    if isSmokeAlert d && isTempAlert tempCritica d then
      { isAlert := true, cause := "ALERTA DE HUMO Y TEMPERATURA" }
    else if isSmokeAlert d then
      { isAlert := true, cause := "ALERTA DE HUMO" }
    else if isTempAlert tempCritica d then
      { isAlert := true, cause := "ALERTA DE TEMPERATURA" }
    else
      { isAlert := false, cause := "NORMAL" }

/-- `humidityValue` from the unnamed variant (`src/unnamed/part_000`,
line 77): `lastData ? parseFloat(lastData.field2) : 0`. -/
def humidityValue (lastData : Option Feed) : Option Rat :=
  match lastData with
  | none => some 0
  | some d => parseFloatOpt d.field2

/-- `isHumidityAlert` from the unnamed variant (`src/unnamed/part_000`,
line 79): `humidityValue < 20 || humidityValue > 80`. -/
def isHumidityAlert (lastData : Option Feed) : Bool :=
  jsLt (humidityValue lastData) HUMEDAD_MIN || jsGt (humidityValue lastData) HUMEDAD_MAX

/-- The generic network-error message thrown for a non-2xx response on the
latest-sample endpoint. -/
def NET_ERROR_MSG : String := "Error de red al obtener el último dato."

/-- The specific empty-channel message thrown when the latest-sample payload
is null or its temperature field is falsy. -/
def EMPTY_CHANNEL_MSG : String := "Canal de ThingSpeak vacío o datos no disponibles."

/-- The network-error message for the historical endpoint. -/
def HIST_ERROR_MSG : String := "Error de red al obtener datos históricos."

/-- The component state touched by `fetchData`: `lastData`, `historicalData`
(the `feeds` array), the error message and the loading flag. -/
structure AppState where
  lastData : Option Feed
  historicalData : Option (List Feed)
  error : Option String
  loading : Bool
deriving DecidableEq

/-- The initial component state: `useState(null)` twice, `loading = true`,
`error = null`. -/
def initialState : AppState :=
  { lastData := none, historicalData := none, error := none, loading := true }

/-- An HTTP response as observed by `fetchData`: the `ok` flag and the
decoded JSON body. -/
structure HttpResp (α : Type) where
  ok : Bool
  body : α
deriving DecidableEq

/-- The outcome of one `fetchData` cycle: the state after the cycle and
whether the historical fetch (sub-step b) was issued at all. -/
structure FetchOutcome where
  state : AppState
  historyFetched : Bool
deriving DecidableEq

/-- One cycle of `fetchData` from `src/App.jsx` (lines 187–209), as a pure
transition on the component state, given the two HTTP responses the cycle
would observe.  The latest-sample response body is the decoded JSON
(`none` = null); the history response body is its `feeds` field
(`none` = absent).  Control flow follows the source's try/catch: a throw
anywhere skips the rest of the cycle and records the message in `error`;
`setLoading(false)` always runs. -/
def fetchData (st : AppState) (lastResp : HttpResp (Option Feed))
    (histResp : HttpResp (Option (List Feed))) : FetchOutcome :=
  if lastResp.ok = false then
    ⟨{ st with error := some NET_ERROR_MSG, loading := false }, false⟩
  else
    match lastResp.body with
    | none =>
      ⟨{ st with error := some EMPTY_CHANNEL_MSG, loading := false }, false⟩
    | some j =>
      if truthyStr j.field1 = false then
        ⟨{ st with error := some EMPTY_CHANNEL_MSG, loading := false }, false⟩
      else
        let st1 := { st with lastData := some j }
        if histResp.ok = false then
          ⟨{ st1 with error := some HIST_ERROR_MSG, loading := false }, true⟩
        else
          ⟨{ st1 with historicalData := histResp.body
                    , error := none
                    , loading := false }, true⟩

/-- Sub-step (a) of a cycle fails: network failure, null payload, or a
payload whose `field1` is falsy (the `!lastJson || !lastJson.field1`
guard). -/
def firstStepFails (lastResp : HttpResp (Option Feed)) : Prop :=
  lastResp.ok = false ∨ lastResp.body = none ∨
    ∃ j, lastResp.body = some j ∧ truthyStr j.field1 = false

instance (lastResp : HttpResp (Option Feed)) : Decidable (firstStepFails lastResp) := by
  unfold firstStepFails
  cases lastResp.body <;> exact inferInstance

/-- The field key passed to `getChartData` (`feed[fieldKey]` dynamic
access). -/
inductive FieldKey
  | field1
  | field2
  | field3
  | field4
deriving DecidableEq

/-- Dynamic field access `feed[fieldKey]`. -/
def getField (f : Feed) : FieldKey → Option String
  | .field1 => f.field1
  | .field2 => f.field2
  | .field3 => f.field3
  | .field4 => f.field4

/-- Abstraction of
`new Date(feed.created_at).toLocaleTimeString('es-CL')`: a display label
computed from the sample's time point.  The locale formatting itself is
irrelevant to the claims; only that each label is a function of the
timestamp matters. -/
def timeLabel (t : Nat) : String := toString t

/-- The `labels` expression of `getChartData`:
`historicalData ? historicalData.map(... toLocaleTimeString ...) : []`. -/
def chartLabels (historicalData : Option (List Feed)) : List String :=
  match historicalData with
  | some h => h.map (fun feed => timeLabel feed.created_at)
  | none => []

/-- The dataset `data` expression of `getChartData`:
`historicalData ? historicalData.map(feed => parseFloat(feed[fieldKey])) : []`. -/
def chartValues (historicalData : Option (List Feed)) (fieldKey : FieldKey) :
    List (Option Rat) :=
  match historicalData with
  | some h => h.map (fun feed => parseFloatOpt (getField feed fieldKey))
  | none => []

/-- One chart.js dataset as built by `getChartData`. -/
structure Dataset where
  label : String
  data : List (Option Rat)
  borderColor : String
  backgroundColor : String
deriving DecidableEq

/-- The chart.js data object `{labels, datasets}` built by `getChartData`. -/
structure ChartData where
  labels : List String
  datasets : List Dataset
deriving DecidableEq

/-- `getChartData(fieldKey, label, color)` from `src/App.jsx`
(lines 247–260), with the component's `historicalData` made an explicit
argument.  Always returns a chart object (never null); an absent window
yields empty labels and values. -/
def getChartData (historicalData : Option (List Feed)) (fieldKey : FieldKey)
    (label color : String) : ChartData :=
  { labels := chartLabels historicalData
  , datasets := [{ label := label
                 , data := chartValues historicalData fieldKey
                 , borderColor := color
                 , backgroundColor := (color.replace "rgb" "rgba").replace ")" ", 0.5)" }] }

/-- Length of a possibly-absent window: 0 when null/undefined. -/
def windowLength : Option (List Feed) → Nat
  | none => 0
  | some w => w.length

/-- Modelled from the spec: the HistoryFilter component
(`filterAlerts(window, limit)`) has no implementation under `src/` — only
the spec (§4.4) describes it.  Per the spec it selects only samples whose
`smokeStatus != "NORMAL"` (the raw `field4`, not the classifier verdict),
takes at most `limit` of the most recent qualifying entries, and reverses
them so the newest is first.  The window is oldest-first, so this is:
filter, reverse (newest-first), take `limit`. -/
def filterAlerts (window : List Feed) (limit : Nat) : List Feed :=
  ((window.filter (fun f => f.field4 ≠ some "NORMAL")).reverse).take limit

/-- An event in the discrete model of the polling effect
(`src/App.jsx` lines 212–216): the interval timer fires, the effect
cleanup runs (`clearInterval`), or an in-flight `fetchData` call completes
having observed the given two responses. -/
inductive PollEvent
  | tick
  | teardown
  | complete (id : Nat) (lastResp : HttpResp (Option Feed))
      (histResp : HttpResp (Option (List Feed)))

/-- State of the polling effect: whether the interval is still installed,
the ids of `fetchData` calls started but not yet completed, the id counter
for started calls, and the component state. -/
structure PollerState where
  timerActive : Bool
  inFlight : List Nat
  nextId : Nat
  app : AppState

/-- One step of the polling model, mirroring the source: a tick starts a
new `fetchData` call only while the interval is installed; teardown runs
the effect cleanup, which only calls `clearInterval` — it does not touch
in-flight calls; a completion of an in-flight call applies the `fetchData`
state transition unconditionally (the source has no mounted-flag or abort
guard). -/
def pollerStep (s : PollerState) : PollEvent → PollerState
  | .tick =>
    if s.timerActive then
      { s with inFlight := s.inFlight ++ [s.nextId], nextId := s.nextId + 1 }
    else s
  | .teardown => { s with timerActive := false }
  | .complete id lastResp histResp =>
    if id ∈ s.inFlight then
      { s with inFlight := s.inFlight.erase id
             , app := (fetchData s.app lastResp histResp).state }
    else s

/-- Run a sequence of events. -/
def runEvents (s : PollerState) (evs : List PollEvent) : PollerState :=
  evs.foldl pollerStep s

/-- The poller state right after mount: the effect has issued the first
`fetchData` call (id 0) and installed the interval. -/
def mountPoller : PollerState :=
  { timerActive := true, inFlight := [0], nextId := 1, app := initialState }

/-- A concrete feed with a hot temperature and normal smoke status. -/
def tempOnlyFeed : Feed := ⟨some "45", some "50", some "120", some "NORMAL", 10, 1⟩

/-- A concrete feed with a cool temperature and a smoke condition. -/
def smokeOnlyFeed : Feed := ⟨some "25", some "50", some "900", some "FIRE_DETECTED", 11, 2⟩

/-- A concrete feed with no alert condition at all. -/
def calmFeed : Feed := ⟨some "25", some "50", some "120", some "NORMAL", 12, 3⟩

/-- A feed with in-range humidity (50 %). -/
def humidFeedA : Feed := ⟨some "45", some "50", some "120", some "NORMAL", 20, 5⟩

/-- The same feed with out-of-range humidity (90 %). -/
def humidFeedB : Feed := ⟨some "45", some "90", some "120", some "NORMAL", 20, 5⟩

/-- A raw feed whose temperature field is present and truthy but not
numeric: JavaScript `parseFloat` yields `NaN` on it. -/
def malformedFeed : Feed := ⟨some "abc", some "50", some "120", some "NORMAL", 30, 7⟩

example : parseFloat "45" = some 45 := by decide
example : parseFloat "abc" = none := by decide
example : parseFloat "-3" = some (-3) := by decide
example : parseFloat "" = none := by decide
example : parseFloat "45abc" = some 45 := by decide

example :
    checkAlertStatus 40 (some tempOnlyFeed) =
      { isAlert := true, cause := "ALERTA DE TEMPERATURA" } := by decide

example :
    checkAlertStatus 40 (some smokeOnlyFeed) =
      { isAlert := true, cause := "ALERTA DE HUMO" } := by decide

/-- C1: for every sample and threshold configuration, `checkAlertStatus`
assigns the cause by fixed priority: both flags → the combined smoke-and-
temperature cause (`"ALERTA DE HUMO Y TEMPERATURA"`), only smoke →
`"ALERTA DE HUMO"`, only temperature → `"ALERTA DE TEMPERATURA"`, neither →
`"NORMAL"`. -/
theorem checkAlertStatus_cause_priority (cfg : Rat) (d : Feed) :
    (checkAlertStatus cfg (some d)).cause =
      match isSmokeAlert d, isTempAlert cfg d with
      | true, true => "ALERTA DE HUMO Y TEMPERATURA"
      | true, false => "ALERTA DE HUMO"
      | false, true => "ALERTA DE TEMPERATURA"
      | false, false => "NORMAL" := by
  cases hs : isSmokeAlert d <;> cases ht : isTempAlert cfg d <;>
    simp [checkAlertStatus, hs, ht]

/-- Witness for C1 at a concrete smoke-only sample. -/
theorem checkAlertStatus_cause_priority_witness :
    (checkAlertStatus 40 (some smokeOnlyFeed)).cause =
      match isSmokeAlert smokeOnlyFeed, isTempAlert 40 smokeOnlyFeed with
      | true, true => "ALERTA DE HUMO Y TEMPERATURA"
      | true, false => "ALERTA DE HUMO"
      | false, true => "ALERTA DE TEMPERATURA"
      | false, false => "NORMAL" :=
  checkAlertStatus_cause_priority 40 smokeOnlyFeed

/-- C2: the verdict's flags are the strict defining predicates — for a
sample whose temperature field parses to `t`, the temperature flag holds
iff `t > criticalTemperatureC` (equality gives `false`), and the smoke flag
holds iff the smoke status differs from the exact string `"NORMAL"`. -/
theorem alert_flags_strict (cfg : Rat) (d : Feed) (t : Rat)
    (ht : parseFloatOpt d.field1 = some t) :
    (isTempAlert cfg d = true ↔ t > cfg) ∧
    (t = cfg → isTempAlert cfg d = false) ∧
    (∀ s, d.field4 = some s → (isSmokeAlert d = true ↔ s ≠ "NORMAL")) := by
  refine ⟨?_, ?_, ?_⟩
  · simp [isTempAlert, jsGt, ht]
  · intro h; simp [isTempAlert, jsGt, ht, h]
  · intro s hs; simp [isSmokeAlert, hs]

/-- Witness for C2 at a concrete sample: temperature `"45"` parses to 45,
45 > 40 so the flag is set, and the smoke flag tracks `field4`. -/
theorem alert_flags_strict_witness :
    parseFloatOpt tempOnlyFeed.field1 = some 45 ∧
    ((isTempAlert 40 tempOnlyFeed = true ↔ (45 : Rat) > 40) ∧
     ((45 : Rat) = 40 → isTempAlert 40 tempOnlyFeed = false) ∧
     (∀ s, tempOnlyFeed.field4 = some s →
        (isSmokeAlert tempOnlyFeed = true ↔ s ≠ "NORMAL"))) :=
  ⟨by decide, alert_flags_strict 40 tempOnlyFeed 45 (by decide)⟩

/-- C10: applied to a null/undefined sample, the classifier returns the
non-alert verdict `{isAlert: false, cause: 'NORMAL'}` instead of raising,
for every threshold. -/
theorem checkAlertStatus_null (cfg : Rat) :
    checkAlertStatus cfg none = { isAlert := false, cause := "NORMAL" } := rfl

/-- Witness for C10 at the source's threshold. -/
theorem checkAlertStatus_null_witness :
    checkAlertStatus 40 none = { isAlert := false, cause := "NORMAL" } :=
  checkAlertStatus_null 40

/-- C8: humidity never influences the verdict — two samples that agree on
every field except the humidity field `field2` receive the same alert flag
and the same cause, for every threshold. -/
theorem humidity_noninterference (cfg : Rat) (d₁ d₂ : Feed)
    (h1 : d₁.field1 = d₂.field1) (h3 : d₁.field3 = d₂.field3)
    (h4 : d₁.field4 = d₂.field4) (hc : d₁.created_at = d₂.created_at)
    (he : d₁.entry_id = d₂.entry_id) :
    checkAlertStatus cfg (some d₁) = checkAlertStatus cfg (some d₂) := by
  simp only [checkAlertStatus, isSmokeAlert, isTempAlert, h1, h4]

/-- Witness for C8: two concrete samples differing only in humidity get the
same verdict even though their `isHumidityAlert` flags differ. -/
theorem humidity_noninterference_witness :
    humidFeedA.field1 = humidFeedB.field1 ∧
    humidFeedA.field3 = humidFeedB.field3 ∧
    humidFeedA.field4 = humidFeedB.field4 ∧
    humidFeedA.created_at = humidFeedB.created_at ∧
    humidFeedA.entry_id = humidFeedB.entry_id ∧
    checkAlertStatus 40 (some humidFeedA) = checkAlertStatus 40 (some humidFeedB) ∧
    isHumidityAlert (some humidFeedA) ≠ isHumidityAlert (some humidFeedB) :=
  ⟨rfl, rfl, rfl, rfl, rfl,
   humidity_noninterference 40 humidFeedA humidFeedB rfl rfl rfl rfl rfl,
   by decide⟩

/-- C6: a successful response with a null payload or a missing temperature
field reports the specific empty-channel message, a non-2xx response
reports the generic network message, and the two messages differ. -/
theorem empty_channel_distinct_from_network :
    (∀ (st : AppState) (j : Option Feed) (hr : HttpResp (Option (List Feed))),
        (j = none ∨ ∃ f, j = some f ∧ f.field1 = none) →
        (fetchData st ⟨true, j⟩ hr).state.error = some EMPTY_CHANNEL_MSG) ∧
    (∀ (st : AppState) (j : Option Feed) (hr : HttpResp (Option (List Feed))),
        (fetchData st ⟨false, j⟩ hr).state.error = some NET_ERROR_MSG) ∧
    EMPTY_CHANNEL_MSG ≠ NET_ERROR_MSG := by
  refine ⟨?_, ?_, by decide⟩
  · rintro st j hr (rfl | ⟨f, rfl, hf⟩)
    · rfl
    · simp [fetchData, truthyStr, hf]
  · intro st j hr; rfl

/-- Witness for C6 at concrete inputs: null payload on a 2xx response gives
the empty-channel message, a non-2xx response gives the network message. -/
theorem empty_channel_distinct_from_network_witness :
    (fetchData initialState ⟨true, none⟩ ⟨true, none⟩).state.error = some EMPTY_CHANNEL_MSG ∧
    (fetchData initialState ⟨false, none⟩ ⟨true, none⟩).state.error = some NET_ERROR_MSG ∧
    EMPTY_CHANNEL_MSG ≠ NET_ERROR_MSG :=
  ⟨empty_channel_distinct_from_network.1 initialState none ⟨true, none⟩ (Or.inl rfl),
   empty_channel_distinct_from_network.2.1 initialState none ⟨true, none⟩,
   empty_channel_distinct_from_network.2.2⟩

/-- C7: within a cycle, the historical fetch is issued iff the
latest-sample step succeeds and its payload passes the validation guard;
when the first step fails, the window state is left unchanged. -/
theorem history_fetch_gated (st : AppState) (lr : HttpResp (Option Feed))
    (hr : HttpResp (Option (List Feed))) :
    ((fetchData st lr hr).historyFetched = true ↔ ¬ firstStepFails lr) ∧
    (firstStepFails lr → (fetchData st lr hr).state.historicalData = st.historicalData) := by
  obtain ⟨ok, body⟩ := lr
  cases ok
  · exact ⟨by simp [fetchData, firstStepFails], fun _ => rfl⟩
  · cases body with
    | none => exact ⟨by simp [fetchData, firstStepFails], fun _ => rfl⟩
    | some j =>
      by_cases hf : truthyStr j.field1 = false
      · refine ⟨?_, fun _ => ?_⟩
        · simp [fetchData, firstStepFails, hf]
        · simp [fetchData, hf]
      · have hft : truthyStr j.field1 = true := by
          cases h : truthyStr j.field1
          · exact absurd h hf
          · rfl
        have hnofail : ¬ firstStepFails ⟨true, some j⟩ := by
          rintro (h | h | ⟨j', hj', hj'f⟩)
          · exact Bool.noConfusion h
          · exact Option.noConfusion h
          · cases Option.some.inj hj'
            simp [hft] at hj'f
        obtain ⟨hok, hbody⟩ := hr
        refine ⟨?_, fun hfail => absurd hfail hnofail⟩
        cases hok <;> simp [fetchData, hft, hnofail]

/-- Witness for C7 at a concrete failing first step: a network failure on
the latest-sample fetch skips the historical fetch and leaves the window
unchanged. -/
theorem history_fetch_gated_witness :
    firstStepFails ⟨false, none⟩ ∧
    (fetchData initialState ⟨false, none⟩ ⟨true, some []⟩).historyFetched = false ∧
    (fetchData initialState ⟨false, none⟩ ⟨true, some []⟩).state.historicalData =
      initialState.historicalData := by
  have h := history_fetch_gated initialState ⟨false, none⟩ ⟨true, some []⟩
  exact ⟨Or.inl rfl, by decide, h.2 (Or.inl rfl)⟩

/-- C3 (code bug): the only validation in `fetchData` is the truthiness
check `!lastJson || !lastJson.field1`, so a record whose temperature field
is a truthy non-numeric string is accepted (stored in `lastData`, no
error), its temperature parses to `NaN` (`none`), and the classifier
silently evaluates it as a non-alert — contradicting the documented
invariant that such a record is rejected before the classifier. -/
theorem malformed_sample_not_rejected :
    (fetchData initialState ⟨true, some malformedFeed⟩ ⟨true, some []⟩).state.lastData =
      some malformedFeed ∧
    (fetchData initialState ⟨true, some malformedFeed⟩ ⟨true, some []⟩).state.error = none ∧
    parseFloatOpt malformedFeed.field1 = none ∧
    checkAlertStatus TEMP_CRITICA (some malformedFeed) =
      { isAlert := false, cause := "NORMAL" } :=
  ⟨rfl, rfl, by decide, by decide⟩

/-- C5: for every window (absent, empty or loaded), `getChartData` returns
a chart object whose labels and values both have the window's length (0
when the window is absent), and whose entries are index-aligned,
oldest-first, with the input: label i is the display time of sample i and
value i is the parsed selected field of sample i. -/
theorem getChartData_series_aligned (hd : Option (List Feed)) (fk : FieldKey)
    (lbl col : String) :
    (getChartData hd fk lbl col).labels.length = windowLength hd ∧
    (∀ ds ∈ (getChartData hd fk lbl col).datasets, ds.data.length = windowLength hd) ∧
    (∀ (w : List Feed), hd = some w → ∀ (i : Nat) (f : Feed), w[i]? = some f →
      (getChartData hd fk lbl col).labels[i]? = some (timeLabel f.created_at) ∧
      ∀ ds ∈ (getChartData hd fk lbl col).datasets,
        ds.data[i]? = some (parseFloatOpt (getField f fk))) := by
  refine ⟨?_, ?_, ?_⟩
  · cases hd <;> simp [getChartData, chartLabels, windowLength]
  · intro ds hds
    simp [getChartData] at hds
    subst hds
    cases hd <;> simp [chartValues, windowLength]
  · rintro w rfl i f hif
    constructor
    · simp [getChartData, chartLabels, List.getElem?_map, hif]
    · intro ds hds
      simp [getChartData] at hds
      subst hds
      simp [chartValues, List.getElem?_map, hif]

/-- Witness for C5 at a concrete two-sample window: lengths agree and the
first label/value come from the first (oldest) sample. -/
theorem getChartData_series_aligned_witness :
    (getChartData (some [tempOnlyFeed, calmFeed]) .field1 "T" "rgb(0, 0, 0)").labels.length =
      windowLength (some [tempOnlyFeed, calmFeed]) ∧
    (getChartData (some [tempOnlyFeed, calmFeed]) .field1 "T" "rgb(0, 0, 0)").labels[0]? =
      some (timeLabel tempOnlyFeed.created_at) := by
  have h := getChartData_series_aligned (some [tempOnlyFeed, calmFeed]) .field1 "T" "rgb(0, 0, 0)"
  exact ⟨h.1, (h.2.2 _ rfl 0 tempOnlyFeed rfl).1⟩

/-- C4 (spec-modelled): `filterAlerts` selects only window members whose
smoke status differs from `"NORMAL"` (it inspects nothing but `field4`),
returns at most `limit` entries, and — whenever the window is strictly
ordered oldest-first by timestamp — its result is strictly ordered
newest-first by timestamp. -/
theorem filterAlerts_spec (window : List Feed) (limit : Nat) :
    (∀ f ∈ filterAlerts window limit, f ∈ window ∧ f.field4 ≠ some "NORMAL") ∧
    (filterAlerts window limit).length ≤ limit ∧
    (List.Pairwise (fun a b => a.created_at < b.created_at) window →
      List.Pairwise (fun a b => b.created_at < a.created_at)
        (filterAlerts window limit)) := by
  refine ⟨?_, ?_, ?_⟩
  · intro f hf
    unfold filterAlerts at hf
    have h1 := List.mem_reverse.mp (List.mem_of_mem_take hf)
    have h2 := List.mem_filter.mp h1
    exact ⟨h2.1, by simpa using h2.2⟩
  · unfold filterAlerts
    simp [List.length_take]
  · intro hsort
    unfold filterAlerts
    have hfil := hsort.filter (fun f => f.field4 ≠ some "NORMAL")
    have hrev : List.Pairwise (fun a b => b.created_at < a.created_at)
        ((window.filter (fun f => f.field4 ≠ some "NORMAL")).reverse) :=
      List.pairwise_reverse.mpr hfil
    exact hrev.sublist (List.take_sublist _ _)

/-- Witness for C4 at a concrete strictly increasing three-sample window:
only the smoke-bearing sample survives, the bound holds, and the result is
newest-first. -/
theorem filterAlerts_spec_witness :
    (∀ f ∈ filterAlerts [tempOnlyFeed, smokeOnlyFeed, calmFeed] 5,
        f ∈ [tempOnlyFeed, smokeOnlyFeed, calmFeed] ∧ f.field4 ≠ some "NORMAL") ∧
    (filterAlerts [tempOnlyFeed, smokeOnlyFeed, calmFeed] 5).length ≤ 5 ∧
    List.Pairwise (fun a b => b.created_at < a.created_at)
      (filterAlerts [tempOnlyFeed, smokeOnlyFeed, calmFeed] 5) := by
  have h := filterAlerts_spec [tempOnlyFeed, smokeOnlyFeed, calmFeed] 5
  exact ⟨h.1, h.2.1, h.2.2 (by decide)⟩

/-- C9 counterexample: in the concrete trace "mount (fetch 0 in flight),
teardown, fetch 0 completes successfully", the completion still applies its
state update after teardown — `lastData` changes from `none` to the fetched
sample — because the effect cleanup only clears the interval and does not
cancel or guard the in-flight `fetchData` call. -/
theorem inflight_fetch_updates_after_teardown :
    (runEvents mountPoller [.teardown]).app.lastData = none ∧
    (runEvents mountPoller
        [.teardown, .complete 0 ⟨true, some tempOnlyFeed⟩ ⟨true, some [calmFeed]⟩]).app.lastData =
      some tempOnlyFeed := by
  exact ⟨rfl, by decide⟩

/-- Once the timer is cleared, no event re-installs it and no event starts
a new fetch cycle (`nextId`, the count of cycles ever started, is
unchanged). -/
theorem pollerStep_torn_invariant (s : PollerState) (e : PollEvent)
    (h : s.timerActive = false) :
    (pollerStep s e).timerActive = false ∧ (pollerStep s e).nextId = s.nextId := by
  cases e with
  | tick => simp [pollerStep, h]
  | teardown => exact ⟨rfl, rfl⟩
  | complete id lastResp histResp =>
    by_cases hm : id ∈ s.inFlight <;> simp [pollerStep, hm, h]

/-- C9 amended: after teardown no further fetch cycle is ever started —
the timer stays cleared and the started-cycle counter never grows, over
every sequence of subsequent events — but teardown does not cancel calls
already in flight (`inFlight` is untouched), and such a call still applies
its update on completion. -/
theorem teardown_stops_new_cycles (s : PollerState) (evs : List PollEvent) :
    (runEvents (pollerStep s .teardown) evs).nextId = s.nextId ∧
    (runEvents (pollerStep s .teardown) evs).timerActive = false ∧
    (pollerStep s .teardown).inFlight = s.inFlight := by
  have key : ∀ (evs : List PollEvent) (s' : PollerState), s'.timerActive = false →
      (runEvents s' evs).nextId = s'.nextId ∧ (runEvents s' evs).timerActive = false := by
    intro evs
    induction evs with
    | nil => intro s' h; exact ⟨rfl, h⟩
    | cons e rest ih =>
      intro s' h
      have he := pollerStep_torn_invariant s' e h
      have hr := ih (pollerStep s' e) he.1
      exact ⟨hr.1.trans he.2, hr.2⟩
  obtain ⟨h1, h2⟩ := key evs (pollerStep s .teardown) rfl
  exact ⟨h1, h2, rfl⟩

/-- Witness for the amended C9 at a concrete post-teardown event sequence
(a tick and a completion): no new cycle is started, the timer stays
cleared, and the in-flight call survives teardown. -/
theorem teardown_stops_new_cycles_witness :
    (runEvents (pollerStep mountPoller .teardown)
        [.tick, .complete 0 ⟨true, some calmFeed⟩ ⟨true, some []⟩]).nextId =
      mountPoller.nextId ∧
    (runEvents (pollerStep mountPoller .teardown)
        [.tick, .complete 0 ⟨true, some calmFeed⟩ ⟨true, some []⟩]).timerActive = false ∧
    (pollerStep mountPoller .teardown).inFlight = mountPoller.inFlight :=
  teardown_stops_new_cycles mountPoller
    [.tick, .complete 0 ⟨true, some calmFeed⟩ ⟨true, some []⟩]

end Igneo
